import Mathlib

/-!
# Verification of the `lisp.py` S-expression interpreter

A shallow embedding of `src/lisp.py`: the lexer (`tokenize`), the recursive
reader (`read_from_tokens` / `parse`), the atom classifier (`atom`), the
standard environment (`standard_env`) and the recursive evaluator
(`evaluate`), together with theorems settling the spec's claims about them.

Python floating-point values are modelled as exact rationals; every float
literal appearing in the claims (`0.5`, `2.5`, `0.0`) is exactly
representable in binary floating point, so the model agrees with Python on
all of them.  The special float spellings `inf`/`nan` accepted by Python's
`float()` are omitted from the literal grammar (no claim concerns them, and
they have no rational value).
-/

namespace Lisp

/-- Parsed expressions: the result type of `read_from_tokens`.  In the Python
source an expression is an `int`, a `float`, a `Symbol` (= `str`) or a
`list` of expressions. -/
inductive Expr where
  | int   (n : Int)
  | float (q : ℚ)
  | sym   (s : String)
  | list  (es : List Expr)
deriving Repr

mutual

/-- Decidable equality of expressions (the nested `List` occurrence keeps
`deriving` from producing it). -/
def Expr.decEq : (a b : Expr) → Decidable (a = b)
  | .int n, .int m =>
      if h : n = m then isTrue (by rw [h]) else isFalse (by simp [h])
  | .float p, .float q =>
      if h : p = q then isTrue (by rw [h]) else isFalse (by simp [h])
  | .sym s, .sym t =>
      if h : s = t then isTrue (by rw [h]) else isFalse (by simp [h])
  | .list es, .list fs =>
      match Expr.decEqList es fs with
      | isTrue h => isTrue (by rw [h])
      | isFalse h => isFalse (by simp [h])
  | .int _, .float _ | .int _, .sym _ | .int _, .list _
  | .float _, .int _ | .float _, .sym _ | .float _, .list _
  | .sym _, .int _ | .sym _, .float _ | .sym _, .list _
  | .list _, .int _ | .list _, .float _ | .list _, .sym _ =>
      isFalse (fun h => by cases h)

/-- Decidable equality of expression lists. -/
def Expr.decEqList : (es fs : List Expr) → Decidable (es = fs)
  | [], [] => isTrue rfl
  | [], _ :: _ => isFalse (fun h => by cases h)
  | _ :: _, [] => isFalse (fun h => by cases h)
  | e :: es, f :: fs =>
      match Expr.decEq e f, Expr.decEqList es fs with
      | isTrue h1, isTrue h2 => isTrue (by rw [h1, h2])
      | isFalse h1, _ => isFalse (by simp [h1])
      | _, isFalse h2 => isFalse (by simp [h2])

end

instance : DecidableEq Expr := Expr.decEq

instance {ε α : Type} [DecidableEq ε] [DecidableEq α] : DecidableEq (Except ε α)
  | .ok a, .ok b =>
      if h : a = b then isTrue (by rw [h]) else isFalse (by simp [h])
  | .error e, .error f =>
      if h : e = f then isTrue (by rw [h]) else isFalse (by simp [h])
  | .ok _, .error _ => isFalse (fun h => by cases h)
  | .error _, .ok _ => isFalse (fun h => by cases h)

/-- Errors raised while reading.  `unexpectedEOF` is
`SyntaxError('Unexpected EOF')` (raised when `read_from_tokens` is entered
with an empty token list); `unexpectedClose` is `SyntaxError('Unexpected )')`;
`indexError` is the `IndexError` Python raises at `tokens[0]` in the
`while tokens[0] != ')'` condition when the tokens have run out inside an
open list.  `outOfFuel` is an artefact of the embedding's fuel counter and
is unreachable for the fuel `parse` supplies. -/
inductive ReadErr where
  | unexpectedEOF
  | unexpectedClose
  | indexError
  | outOfFuel
deriving Repr, DecidableEq

/-- The two `str.replace` calls of `tokenize`: surround every parenthesis
with spaces.  (The source replaces `(` and then `)` in two passes; since
neither replacement introduces new parentheses, one pass is the same
function.) -/
def padParens : List Char → List Char
  | [] => []
  | c :: cs =>
      if c = '(' ∨ c = ')' then ' ' :: c :: ' ' :: padParens cs
      else c :: padParens cs

/-- Python's `str.split()` with no argument: split on runs of whitespace,
dropping empty fragments.  `cur` holds the characters of the word being
accumulated, in reverse. -/
def splitWS (cur : List Char) : List Char → List String
  | [] => if cur.isEmpty then [] else [String.mk cur.reverse]
  | c :: cs =>
      if c.isWhitespace then
        if cur.isEmpty then splitWS [] cs
        else String.mk cur.reverse :: splitWS [] cs
      else splitWS (c :: cur) cs

/-- `tokenize(chars)`: pad parentheses with spaces and split on whitespace. -/
def tokenize (chars : String) : List String :=
  splitWS [] (padParens chars.toList)

/-- Digit run with optional single underscores between digits, as accepted
inside Python's `int()` and `float()` literals: accumulates the value and
the count of digits consumed so far. -/
def usDigitsGo (acc : Nat) : List Char → Option Nat
  | [] => some acc
  | '_' :: c :: cs =>
      if c.isDigit then usDigitsGo (acc * 10 + (c.toNat - '0'.toNat)) cs else none
  | c :: cs =>
      if c.isDigit then usDigitsGo (acc * 10 + (c.toNat - '0'.toNat)) cs else none

/-- A full underscore-separated digit run (`digit (('_')? digit)*`),
rejecting leading/trailing underscores and empty input. -/
def usDigits : List Char → Option Nat
  | c :: cs => if c.isDigit then usDigitsGo (c.toNat - '0'.toNat) cs else none
  | [] => none

/-- Strip leading and trailing whitespace characters, as Python's `int()`
and `float()` do before parsing the literal. -/
def stripWS (cs : List Char) : List Char :=
  ((cs.dropWhile Char.isWhitespace).reverse.dropWhile Char.isWhitespace).reverse

/-- Model of Python's `int(token)`: optional surrounding whitespace, optional
sign, then an underscore-separated decimal digit run.  (Non-ASCII digit
support is omitted; no token in the claims uses it.) -/
def pyIntParse (s : String) : Option Int :=
  match stripWS s.toList with
  | '+' :: rest => (usDigits rest).map (fun n => (n : Int))
  | '-' :: rest => (usDigits rest).map (fun n => -(n : Int))
  | rest => (usDigits rest).map (fun n => (n : Int))

/-- Greedily consume an underscore-separated digit run, returning the value
accumulated, the number of digits consumed, and the remaining characters. -/
def takeUSDigits (acc k : Nat) : List Char → Nat × Nat × List Char
  | '_' :: c :: cs =>
      if c.isDigit then takeUSDigits (acc * 10 + (c.toNat - '0'.toNat)) (k + 1) cs
      else (acc, k, '_' :: c :: cs)
  | c :: cs =>
      if c.isDigit then takeUSDigits (acc * 10 + (c.toNat - '0'.toNat)) (k + 1) cs
      else (acc, k, c :: cs)
  | [] => (acc, k, [])

/-- Parse the optional exponent suffix of a float literal (`(e|E) sign?
digits`), which must consume the whole remainder; an empty remainder means
"no exponent" (multiplier 1). -/
def pyExpPart : List Char → Option ℚ
  | [] => some 1
  | 'e' :: rest => pyExpSigned rest
  | 'E' :: rest => pyExpSigned rest
  | _ => none
where
  /-- The signed digit run after `e`/`E`. -/
  pyExpSigned : List Char → Option ℚ
  | '+' :: rest => (usDigits rest).map (fun n => (10 : ℚ) ^ (n : ℤ))
  | '-' :: rest => (usDigits rest).map (fun n => (10 : ℚ) ^ (-(n : ℤ)))
  | rest => (usDigits rest).map (fun n => (10 : ℚ) ^ (n : ℤ))

/-- Parse an unsigned float literal body: `digits ['.' digits] [exp]`,
`'.' digits [exp]` or `digits '.' [exp]`, with at least one mantissa
digit. -/
def pyFloatBody (cs : List Char) : Option ℚ :=
  let (d1, k1, r1) := takeUSDigits 0 0 cs
  match r1 with
  | '.' :: r2 =>
      let (d2, k2, r3) := takeUSDigits 0 0 r2
      if k1 + k2 = 0 then none
      else ((pyExpPart r3).map (fun m => ((d1 : ℚ) + (d2 : ℚ) / (10 : ℚ) ^ k2) * m))
  | r1 =>
      if k1 = 0 then none
      else ((pyExpPart r1).map (fun m => (d1 : ℚ) * m))

/-- Model of Python's `float(token)` on ordinary literals: optional
surrounding whitespace, optional sign, then a float body.  `inf`/`nan`
spellings are omitted (see the module docstring). -/
def pyFloatParse (s : String) : Option ℚ :=
  match stripWS s.toList with
  | '+' :: rest => pyFloatBody rest
  | '-' :: rest => (pyFloatBody rest).map (fun q => -q)
  | rest => pyFloatBody rest

/-- `atom(token)`: try `int(token)`, on `ValueError` try `float(token)`, on
`ValueError` return the token as a `Symbol`. -/
def atom (token : String) : Expr :=
  match pyIntParse token with
  | some n => .int n
  | none =>
      match pyFloatParse token with
      | some q => .float q
      | none => .sym token

/-- `read_from_tokens(tokens)`, with the destructive `pop(0)` consumption
modelled by returning the unconsumed remainder.  The Python recursion is not
structural (the `while` loop re-reads from the same list), so a fuel counter
drives the Lean recursion; `parse` supplies more fuel than the token count,
which the Python depth can never exceed. -/
def readFT : Nat → List String → Except ReadErr (Expr × List String)
  | 0, _ => .error .outOfFuel
  | _ + 1, [] => .error .unexpectedEOF
  | fuel + 1, t :: ts =>
      if t = "(" then
        match readSeq fuel ts with
        | .ok (es, rest) => .ok (.list es, rest)
        | .error e => .error e
      else if t = ")" then .error .unexpectedClose
      else .ok (atom t, ts)
where
  /-- The `while tokens[0] != ')'` loop of the `'('` branch: reads child
  expressions until a pending `')'`, which it pops and discards.  An empty
  token list at the loop condition is Python's `IndexError`. -/
  readSeq : Nat → List String → Except ReadErr (List Expr × List String)
  | 0, _ => .error .outOfFuel
  | _ + 1, [] => .error .indexError
  | fuel + 1, t :: ts =>
      if t = ")" then .ok ([], ts)
      else
        match readFT fuel (t :: ts) with
        | .ok (e, rest) =>
            match readSeq fuel rest with
            | .ok (es, rest1) => .ok (e :: es, rest1)
            | .error err => .error err
        | .error err => .error err

/-- `parse(program)`: tokenize then read one expression (the Python caller
discards any leftover tokens). -/
def parse (program : String) : Except ReadErr Expr :=
  let ts := tokenize program
  (readFT (2 * ts.length + 2) ts).map Prod.fst

/-- The binary primitives `standard_env` installs (`operator.add` etc.).
Each is a distinct Python function object, equal only to itself. -/
inductive Prim where
  | add | sub | mul | div | gt | lt | ge | le | eq
deriving Repr, DecidableEq

/-- Runtime values: Python `int`, `float` (modelled as an exact rational),
`bool` (produced by the comparison primitives), `None` (produced by `def`)
and the callable primitives.  No evaluation in `lisp.py` ever produces a
`list` value (the list branch of `evaluate` returns a special-form result or
a primitive's result), so lists do not occur here. -/
inductive Value where
  | int   (n : Int)
  | float (q : ℚ)
  | bool  (b : Bool)
  | none
  | prim  (p : Prim)
deriving Repr, DecidableEq

/-- Errors `evaluate` can raise: `keyError` from `env[x]` on an unbound
symbol, `indexError` from `x[0]` on an empty list, `valueError` from tuple
unpacking a special form of the wrong length, `typeError` from calling a
non-callable / wrong argument count or operand types / an unhashable `def`
target, and `zeroDivisionError` from `operator.truediv`. -/
inductive EvalErr where
  | keyError (name : String)
  | indexError
  | valueError
  | typeError
  | zeroDivisionError
deriving Repr, DecidableEq

/-- The environment: a Python `dict`.  Modelled as an insertion-ordered
association list; keys are the expressions `def` binds (strings from the
standard population and from well-formed `def`, but `def` can also bind an
`int` or `float` key). -/
abbrev Env := List (Expr × Value)

/-- Python `==` on the atomic values that can serve as `dict` keys here:
numeric cross-type equality (`1 == 1.0` is true), string equality, and
nothing across the numeric/string divide.  `list` keys never reach the
table (binding one raises `TypeError` first). -/
def pyKeyEq : Expr → Expr → Bool
  | .int n, .int m => n = m
  | .int n, .float q => (n : ℚ) = q
  | .float q, .int n => q = (n : ℚ)
  | .float p, .float q => p = q
  | .sym s, .sym t => s = t
  | _, _ => false

/-- `env[k]` as a read: first (and only, keys being unique) entry whose key
is Python-equal to `k`. -/
def dictGet (env : Env) (k : Expr) : Option Value :=
  match env.find? (fun kv => pyKeyEq kv.1 k) with
  | some kv => some kv.2
  | Option.none => Option.none

/-- `env[k] = v`: overwrite the value of the existing Python-equal key, or
append a new entry. -/
def dictSet : Env → Expr → Value → Env
  | [], k, v => [(k, v)]
  | kv :: rest, k, v =>
      if pyKeyEq kv.1 k then (kv.1, v) :: rest else kv :: dictSet rest k v

/-- `standard_env()`: the arithmetic and comparison primitives. -/
def standard_env : Env :=
  [(.sym "+", .prim .add), (.sym "-", .prim .sub), (.sym "*", .prim .mul),
   (.sym "/", .prim .div), (.sym ">", .prim .gt), (.sym "<", .prim .lt),
   (.sym ">=", .prim .ge), (.sym "<=", .prim .le), (.sym "=", .prim .eq)]

/-- A value as a Python `int` operand where `int` semantics apply: `bool`
is an `int` subtype with values 0 and 1. -/
def asInt : Value → Option Int
  | .int n => some n
  | .bool b => some (if b then 1 else 0)
  | _ => Option.none

/-- A value as a numeric operand (exact rational): ints, bools and floats. -/
def asRat : Value → Option ℚ
  | .int n => some (n : ℚ)
  | .bool b => some (if b then 1 else 0)
  | .float q => some q
  | _ => Option.none

/-- Python truthiness of the values that occur here: zero numbers, `False`
and `None` are falsy; everything else is truthy. -/
def truthy : Value → Bool
  | .int n => n ≠ 0
  | .float q => q ≠ 0
  | .bool b => b
  | .none => false
  | .prim _ => true

/-- Python `==` between runtime values: numeric cross-type equality,
`None == None`, a primitive equal only to the same function object;
everything else is `False` (no error). -/
def pyValEq (a b : Value) : Bool :=
  match asRat a, asRat b with
  | some x, some y => x = y
  | _, _ =>
      match a, b with
      | .none, .none => true
      | .prim p, .prim q => p = q
      | _, _ => false

/-- Apply one of the two-argument `operator` primitives.  `+`, `-`, `*`
return `int` on two ints (bools included), `float` otherwise; `/` is
`operator.truediv`: true division, always a float, `ZeroDivisionError` on a
zero divisor; comparisons return bools and reject non-numeric operands;
`=` is `operator.eq`, total. -/
def applyPrim (p : Prim) (a b : Value) : Except EvalErr Value :=
  match p with
  | .add | .sub | .mul =>
      match asInt a, asInt b with
      | some x, some y =>
          .ok (.int (match p with | .sub => x - y | .mul => x * y | _ => x + y))
      | _, _ =>
          match asRat a, asRat b with
          | some x, some y =>
              .ok (.float (match p with | .sub => x - y | .mul => x * y | _ => x + y))
          | _, _ => .error .typeError
  | .div =>
      match asRat a, asRat b with
      | some x, some y =>
          if y = 0 then .error .zeroDivisionError else .ok (.float (x / y))
      | _, _ => .error .typeError
  | .gt | .lt | .ge | .le =>
      match asRat a, asRat b with
      | some x, some y =>
          .ok (.bool (match p with
            | .gt => y < x | .lt => x < y | .ge => y ≤ x | _ => x ≤ y))
      | _, _ => .error .typeError
  | .eq => .ok (.bool (pyValEq a b))

/-- `proc(*args)`: every callable in the environment is one of the binary
`operator` primitives, so any other callee or argument count is a
`TypeError`. -/
def callProc (proc : Value) (args : List Value) : Except EvalErr Value :=
  match proc, args with
  | .prim p, [a, b] => applyPrim p a b
  | _, _ => .error .typeError

mutual

/-- `evaluate(x, env)`.  The Python environment is a shared `dict` mutated
in place, and mutations survive an exception (the REPL keeps using the same
`global_env` after printing the error), so the embedding threads the
environment through and returns it in both the success and the error case.

Dispatch follows the source line by line: a `Symbol` is looked up
(`KeyError` if unbound), any other non-list is returned unchanged, and for
a list the head is compared against the literal strings `'if'` and `'def'`
before generic application.  `x[0]` on an empty list is `IndexError`; tuple
unpacking of a wrong-length special form is `ValueError` and happens before
any child is evaluated; `def` evaluates its value expression and only then
installs the binding (a `list` target is unhashable: `TypeError`), returning
`None`. -/
def evaluate : Expr → Env → Except EvalErr Value × Env
  | .int n, env => (.ok (.int n), env)
  | .float q, env => (.ok (.float q), env)
  | .sym s, env =>
      match dictGet env (.sym s) with
      | some v => (.ok v, env)
      | Option.none => (.error (.keyError s), env)
  | .list [], env => (.error .indexError, env)
  | .list (.sym "if" :: rest), env =>
      match rest with
      | [test, conseq, alt] =>
          match evaluate test env with
          | (.ok t, env1) =>
              if truthy t then evaluate conseq env1 else evaluate alt env1
          | (.error e, env1) => (.error e, env1)
      | _ => (.error .valueError, env)
  | .list (.sym "def" :: rest), env =>
      match rest with
      | [var, exp] =>
          match evaluate exp env with
          | (.ok v, env1) =>
              match var with
              | .list _ => (.error .typeError, env1)
              | _ => (.ok .none, dictSet env1 var v)
          | (.error e, env1) => (.error e, env1)
      | _ => (.error .valueError, env)
  | .list (x0 :: rest), env =>
      match evaluate x0 env with
      | (.ok proc, env1) =>
          match evalArgs rest env1 with
          | (.ok args, env2) => (callProc proc args, env2)
          | (.error e, env2) => (.error e, env2)
      | (.error e, env1) => (.error e, env1)

/-- The list comprehension `[evaluate(exp, env) for exp in x[1:]]`:
left-to-right evaluation of the argument expressions. -/
def evalArgs : List Expr → Env → Except EvalErr (List Value) × Env
  | [], env => (.ok [], env)
  | e :: es, env =>
      match evaluate e env with
      | (.ok v, env1) =>
          match evalArgs es env1 with
          | (.ok vs, env2) => (.ok (v :: vs), env2)
          | (.error err, env2) => (.error err, env2)
      | (.error err, env1) => (.error err, env1)

end

/-! ## Unfolding lemmas for the special forms -/

/-- `evaluate` on a four-element `if` list: evaluate the test, then exactly
one branch. -/
theorem evaluate_if_cons (test conseq alt : Expr) (env : Env) :
    evaluate (.list [.sym "if", test, conseq, alt]) env =
      match evaluate test env with
      | (.ok t, env1) =>
          if truthy t then evaluate conseq env1 else evaluate alt env1
      | (.error e, env1) => (.error e, env1) := rfl

/-- `evaluate` on a three-element `def` list: evaluate the value expression,
then bind. -/
theorem evaluate_def_cons (var exp : Expr) (env : Env) :
    evaluate (.list [.sym "def", var, exp]) env =
      match evaluate exp env with
      | (.ok v, env1) =>
          match var with
          | .list _ => (.error .typeError, env1)
          | _ => (.ok .none, dictSet env1 var v)
      | (.error e, env1) => (.error e, env1) := rfl

/-! ## The claims -/

/-- C1, counterexample: the claim says `parse "(+ 1 2"` fails with
`UnexpectedEOF`; in fact the tokens run out at the `while tokens[0] != ')'`
condition, which is an `IndexError` — a different kind of failure. -/
theorem unterminated_list_not_eof :
    parse "(+ 1 2" = .error .indexError ∧
      (parse "(+ 1 2" = .error .unexpectedEOF) = False := by
  exact ⟨by decide, eq_false (by decide)⟩

/-- C1, amended: an input whose token sequence is empty fails with
`UnexpectedEOF`, but when the tokens run out with a list still open — as in
`"(+ 1 2"` — the failure is an index-out-of-range error (`IndexError`) at
the close-paren check, not `UnexpectedEOF`. -/
theorem eof_only_on_empty_tokens :
    (∀ s : String, tokenize s = [] → parse s = .error .unexpectedEOF) ∧
      parse "" = .error .unexpectedEOF ∧
      parse "(+ 1 2" = .error .indexError ∧
      (∀ fuel : Nat, readFT.readSeq (fuel + 1) [] = .error .indexError) := by
  refine ⟨fun s h => ?_, by decide, by decide, fun fuel => rfl⟩
  have hp : parse s = (readFT (2 * (tokenize s).length + 2) (tokenize s)).map
      Prod.fst := rfl
  rw [hp, h]
  rfl

/-- C1, witness for the amended theorem at the empty input. -/
theorem eof_only_on_empty_tokens_witness :
    parse "" = .error .unexpectedEOF :=
  eof_only_on_empty_tokens.1 "" (by decide)

/-- C2: the `if` special form evaluates exactly one branch.  When the test
evaluates truthily the result is that of the consequent — for every
alternative expression, so an unbound symbol or a `def` there can neither
fail nor touch the environment; symmetrically for a falsy test.
Concretely, `(if (> 3 2) 1 zzz)` with `zzz` unbound evaluates to `1`
without failure, as does `(if (> 3 2) 1 2)`. -/
theorem if_evaluates_exactly_one_branch :
    (∀ (test conseq alt : Expr) (env env1 : Env) (v : Value),
        evaluate test env = (.ok v, env1) → truthy v = true →
        evaluate (.list [.sym "if", test, conseq, alt]) env =
          evaluate conseq env1) ∧
    (∀ (test conseq alt : Expr) (env env1 : Env) (v : Value),
        evaluate test env = (.ok v, env1) → truthy v = false →
        evaluate (.list [.sym "if", test, conseq, alt]) env =
          evaluate alt env1) ∧
    parse "(if (> 3 2) 1 zzz)" =
      .ok (.list [.sym "if", .list [.sym ">", .int 3, .int 2], .int 1,
        .sym "zzz"]) ∧
    evaluate (.list [.sym "if", .list [.sym ">", .int 3, .int 2], .int 1,
        .sym "zzz"]) standard_env = (.ok (.int 1), standard_env) ∧
    evaluate (.list [.sym "if", .list [.sym ">", .int 3, .int 2], .int 1,
        .int 2]) standard_env = (.ok (.int 1), standard_env) := by
  refine ⟨fun test conseq alt env env1 v h ht => ?_,
    fun test conseq alt env env1 v h ht => ?_, by decide, by decide, by decide⟩
  · rw [evaluate_if_cons, h]; simp [ht]
  · rw [evaluate_if_cons, h]; simp [ht]

/-- C2, witness: the truthy case applied at `(if (> 3 2) 1 zzz)` in the
standard environment. -/
theorem if_evaluates_exactly_one_branch_witness :
    evaluate (.list [.sym "if", .list [.sym ">", .int 3, .int 2], .int 1,
        .sym "zzz"]) standard_env = evaluate (.int 1) standard_env :=
  if_evaluates_exactly_one_branch.1 (.list [.sym ">", .int 3, .int 2])
    (.int 1) (.sym "zzz") standard_env standard_env (.bool true)
    (by decide) (by decide)

/-- C3, counterexample: the claim says a `def` whose value expression fails
leaves the environment — in particular the target's prior binding —
unchanged.  But a nested `def` inside the failing value expression mutates
the shared environment first: evaluating
`(def x (if (def x 5) 0 z))` with `x` previously bound to `1` (and `z`
unbound) fails with `KeyError 'z'`, yet afterwards `x` is bound to `5`. -/
theorem failing_def_can_change_env :
    parse "(def x (if (def x 5) 0 z))" =
      .ok (.list [.sym "def", .sym "x",
        .list [.sym "if", .list [.sym "def", .sym "x", .int 5], .int 0,
          .sym "z"]]) ∧
    dictGet (dictSet standard_env (.sym "x") (.int 1)) (.sym "x") =
      some (.int 1) ∧
    (evaluate (.list [.sym "def", .sym "x",
        .list [.sym "if", .list [.sym "def", .sym "x", .int 5], .int 0,
          .sym "z"]])
      (dictSet standard_env (.sym "x") (.int 1))).1 =
      .error (.keyError "z") ∧
    dictGet (evaluate (.list [.sym "def", .sym "x",
        .list [.sym "if", .list [.sym "def", .sym "x", .int 5], .int 0,
          .sym "z"]])
      (dictSet standard_env (.sym "x") (.int 1))).2 (.sym "x") =
      some (.int 5) ∧
    (dictGet (evaluate (.list [.sym "def", .sym "x",
        .list [.sym "if", .list [.sym "def", .sym "x", .int 5], .int 0,
          .sym "z"]])
      (dictSet standard_env (.sym "x") (.int 1))).2 (.sym "x") =
      some (.int 1)) = False := by
  exact ⟨by decide, by decide, by decide, by decide, eq_false (by decide)⟩

/-- C3, amended: when the value expression of `(def name valueExpr)` fails,
the `def` itself installs no binding — evaluation fails with the value
expression's own error, and the environment is exactly whatever the failed
value-expression evaluation left behind.  In particular, when evaluating the
value expression does not itself mutate the environment, every prior
binding — including `name`'s — is untouched (a nested `def` inside the
failing value expression can still mutate it, as the counterexample
shows). -/
theorem failing_def_binds_nothing_itself :
    (∀ (var valueExpr : Expr) (env env1 : Env) (err : EvalErr),
        evaluate valueExpr env = (.error err, env1) →
        evaluate (.list [.sym "def", var, valueExpr]) env =
          (.error err, env1)) ∧
    (∀ (name : String) (valueExpr : Expr) (env : Env) (err : EvalErr),
        evaluate valueExpr env = (.error err, env) →
        (evaluate (.list [.sym "def", .sym name, valueExpr]) env).2 =
          env) := by
  constructor
  · intro var valueExpr env env1 err h
    rw [evaluate_def_cons, h]
  · intro name valueExpr env err h
    rw [evaluate_def_cons, h]

/-- C3, witness for the amended theorem: `(def x z)` with `z` unbound fails
with `KeyError 'z'` and leaves the standard environment as it was. -/
theorem failing_def_binds_nothing_itself_witness :
    evaluate (.list [.sym "def", .sym "x", .sym "z"]) standard_env =
      (.error (.keyError "z"), standard_env) :=
  failing_def_binds_nothing_itself.1 (.sym "x") (.sym "z") standard_env
    standard_env (.keyError "z") (by decide)

/-- C4: the atom classifier is total and tries the classifications in a
fixed order — a token that parses as an integer literal becomes that
integer; otherwise one that parses as a float literal becomes that float;
otherwise the token itself is the symbol.  Concretely `"2"` is the integer
`2`, `"2.5"` is the float `2.5`, and `"x"`, `"+"`, `"if"` are symbols. -/
theorem atom_total_in_order :
    (∀ (t : String) (n : Int), pyIntParse t = some n → atom t = .int n) ∧
    (∀ (t : String) (q : ℚ), pyIntParse t = Option.none →
        pyFloatParse t = some q → atom t = .float q) ∧
    (∀ t : String, pyIntParse t = Option.none →
        pyFloatParse t = Option.none → atom t = .sym t) ∧
    atom "2" = .int 2 ∧
    (∃ q : ℚ, atom "2.5" = .float q ∧ q = 5 / 2) ∧
    atom "x" = .sym "x" ∧ atom "+" = .sym "+" ∧ atom "if" = .sym "if" := by
  refine ⟨fun t n h => ?_, fun t q h1 h2 => ?_, fun t h1 h2 => ?_,
    by decide,
    ⟨_, rfl, by
      rw [show '2'.toNat - '0'.toNat = 2 from rfl,
        show '5'.toNat - '0'.toNat = 5 from rfl]
      norm_num⟩,
    by decide, by decide, by decide⟩
  · simp [atom, h]
  · simp [atom, h1, h2]
  · simp [atom, h1, h2]

/-- C4, witness: the integer-first conjunct applied at the token `"7"`. -/
theorem atom_total_in_order_witness :
    atom "7" = .int 7 :=
  atom_total_in_order.1 "7" 7 (by decide)

/-- C5: the reader checks for a pending `)` before consuming each child, so
`"()"` parses, without failure, to a list with no children. -/
theorem empty_list_is_legal :
    parse "()" = .ok (.list []) := by decide

/-- C6: evaluating `(def x 10)` returns `None` and extends the environment;
evaluating the symbol `x` against that same resulting environment returns
`10` — the binding persists across separate `evaluate` calls. -/
theorem def_binding_persists :
    parse "(def x 10)" = .ok (.list [.sym "def", .sym "x", .int 10]) ∧
    parse "x" = .ok (.sym "x") ∧
    (evaluate (.list [.sym "def", .sym "x", .int 10]) standard_env).1 =
      .ok .none ∧
    (evaluate (.sym "x")
      (evaluate (.list [.sym "def", .sym "x", .int 10]) standard_env).2).1 =
      .ok (.int 10) := by
  exact ⟨by decide, by decide, by decide, by decide⟩

/-- C7: `/` is `operator.truediv` — true, non-truncating division:
`(/ 1 2)` evaluates to the float `0.5`, not the integer `0`. -/
theorem division_is_true_division :
    parse "(/ 1 2)" = .ok (.list [.sym "/", .int 1, .int 2]) ∧
    (∃ q : ℚ,
      (evaluate (.list [.sym "/", .int 1, .int 2]) standard_env).1 =
        .ok (.float q) ∧ q = 1 / 2) ∧
    ((evaluate (.list [.sym "/", .int 1, .int 2]) standard_env).1 =
        .ok (.int 0)) = False := by
  refine ⟨by decide, ⟨_, rfl, by norm_num⟩, eq_false fun h => ?_⟩
  exact absurd ((Except.ok.injEq _ _).mp h) (by simp)

/-- C8: `if` and `def` are dispatched purely on the leading symbol's text,
never through the environment: `(def 1 2)` is processed as the `def`
special form in every environment (binding the key `1`), and rebinding the
names `"if"` or `"def"` in the environment changes nothing about how lists
headed by those symbols evaluate. -/
theorem special_forms_dispatch_on_text :
    (∀ env : Env,
      evaluate (.list [.sym "def", .int 1, .int 2]) env =
        (.ok .none, dictSet env (.int 1) (.int 2))) ∧
    (∀ (env : Env) (v : Value),
      evaluate (.list [.sym "def", .sym "y", .int 3])
          (dictSet env (.sym "def") v) =
        (.ok .none,
          dictSet (dictSet env (.sym "def") v) (.sym "y") (.int 3))) ∧
    (∀ (env : Env) (v : Value),
      (evaluate (.list [.sym "if", .int 1, .int 7, .sym "nope"])
          (dictSet env (.sym "if") v)).1 = .ok (.int 7)) :=
  ⟨fun _ => rfl, fun _ _ => rfl, fun _ _ => rfl⟩

/-- C9: the `if` test follows numeric truthiness: a test evaluating to the
integer `0` or the float `0.0` selects the `alt` branch, while any nonzero
number selects `conseq`.  (No evaluation in this program ever produces a
list value, so the empty-list case of Python truthiness cannot arise.) -/
theorem if_truthiness_is_numeric :
    ∀ (test conseq alt : Expr) (env env1 : Env),
      (evaluate test env = (.ok (.int 0), env1) →
        evaluate (.list [.sym "if", test, conseq, alt]) env =
          evaluate alt env1) ∧
      (evaluate test env = (.ok (.float 0), env1) →
        evaluate (.list [.sym "if", test, conseq, alt]) env =
          evaluate alt env1) ∧
      (∀ n : Int, n ≠ 0 → evaluate test env = (.ok (.int n), env1) →
        evaluate (.list [.sym "if", test, conseq, alt]) env =
          evaluate conseq env1) ∧
      (∀ q : ℚ, q ≠ 0 → evaluate test env = (.ok (.float q), env1) →
        evaluate (.list [.sym "if", test, conseq, alt]) env =
          evaluate conseq env1) := by
  intro test conseq alt env env1
  refine ⟨fun h => ?_, fun h => ?_, fun n hn h => ?_, fun q hq h => ?_⟩
  · rw [evaluate_if_cons, h]; simp [truthy]
  · rw [evaluate_if_cons, h]; simp [truthy]
  · rw [evaluate_if_cons, h]; simp [truthy, hn]
  · rw [evaluate_if_cons, h]; simp [truthy, hq]

/-- C9, witness: a literal `0` test selects the `alt` branch. -/
theorem if_truthiness_is_numeric_witness :
    evaluate (.list [.sym "if", .int 0, .int 7, .int 8]) standard_env =
      evaluate (.int 8) standard_env :=
  (if_truthiness_is_numeric (.int 0) (.int 7) (.int 8) standard_env
    standard_env).1 (by decide)

/-- C10: a well-formed `def` whose value expression evaluates successfully
returns Python `None` — a distinguished no-result value, not the value that
was bound. -/
theorem def_returns_none :
    ∀ (name : String) (valueExpr : Expr) (env env1 : Env) (v : Value),
      evaluate valueExpr env = (.ok v, env1) →
      evaluate (.list [.sym "def", .sym name, valueExpr]) env =
        (.ok .none, dictSet env1 (.sym name) v) := by
  intro name valueExpr env env1 v h
  rw [evaluate_def_cons, h]

/-- C10, witness: `(def x 10)` returns `None`, which differs from the bound
value `10`. -/
theorem def_returns_none_witness :
    evaluate (.list [.sym "def", .sym "x", .int 10]) standard_env =
      (.ok .none, dictSet standard_env (.sym "x") (.int 10)) ∧
    (Value.none = Value.int 10) = False :=
  ⟨def_returns_none "x" (.int 10) standard_env standard_env (.int 10) rfl,
    eq_false (by decide)⟩

end Lisp
